import Mathlib

/-!
Shallow embedding of the Prowlarr plugin pair of the MoviePilot-Plugins
repository:

* `ProwlarrSearch` (src/plugins.v2/prowlarrsearch/__init__.py): intercepts
  search events, keeps a cache mapping local site ids to Prowlarr indexer
  ids, forwards searches for cached sites to Prowlarr and converts the raw
  results back into `TorrentInfo` records.
* `ProwlarrIndexer` (src/plugins.v2/prowlarrindexer/__init__.py): pulls the
  indexer list from Prowlarr, converts each indexer into a MoviePilot
  indexer configuration, caches the configurations and registers them with
  the host's site helper.

Python dictionaries are modelled as insertion-ordered association lists,
Python truthiness of optional values by explicit `pyTruthy*` helpers, and
network requests by an explicit outcome value passed into the function that
would perform the request.  All functions are pure and executable.
-/

set_option autoImplicit false

namespace Prowlarr

/-- Python truthiness of an optional string (`None` and `""` are falsy). -/
def pyTruthyStr : Option String → Bool
  | none => false
  | some s => s ≠ ""

/-- Python truthiness of an optional integer (`None` and `0` are falsy). -/
def pyTruthyNat : Option Nat → Bool
  | none => false
  | some n => n ≠ 0

/-- Python truthiness of an optional (possibly negative) integer. -/
def pyTruthyInt : Option Int → Bool
  | none => false
  | some n => n ≠ 0

/-- Python `s.strip("/")`: remove every leading and trailing `/`. -/
def stripSlashes (s : String) : String :=
  String.mk (((s.toList.dropWhile (· = '/')).reverse.dropWhile (· = '/')).reverse)

/-- Python `s.lower()` (character-wise lowering). -/
def pyLower (s : String) : String :=
  String.mk (s.toList.map Char.toLower)

/-- Modelled from the spec: `StringUtils.get_url_domain` of the host
application (not part of this repository's sources).  The spec says the
domain is "derived deterministically from `base_url` (lowercased host
component of the URL)" and that an indexer is skipped when no "usable
URL/domain" results.  We model it as: strip a `http://` or `https://`
scheme, take the host component up to the first `/`, lowercase it; a string
without a scheme or without a host yields `""` (falsy in the callers). -/
def get_url_domain (url : String) : String :=
  let cs := url.toList
  let rest :=
    if cs.take 7 = "http://".toList then cs.drop 7
    else if cs.take 8 = "https://".toList then cs.drop 8
    else []
  String.mk ((rest.takeWhile (· ≠ '/')).map Char.toLower)

/-- One element of a Prowlarr indexer's `fields` array. -/
structure RawField where
  name : String
  value : Option String
  deriving DecidableEq, Repr

/-- A raw indexer object returned by `GET /api/v1/indexer`. -/
structure RawIndexer where
  id : Option Nat
  name : Option String
  enable : Bool
  definitionName : Option String
  privacy : Option String
  fields : List RawField
  deriving DecidableEq, Repr

/-- The first `fields` entry named `baseUrl` with a truthy value
(the raw, unstripped value).  Embeds the loop
`for field in indexer.get("fields", []): if field.get("name") == "baseUrl"
and field.get("value"): ...` shared by both plugins. -/
def findBaseUrlValue : List RawField → Option String
  | [] => none
  | f :: rest =>
      if f.name = "baseUrl" ∧ pyTruthyStr f.value then f.value
      else findBaseUrlValue rest

/-- Association-list lookup with Python `dict` semantics (`m[k]` /
`m.get(k)` / `k in m`). -/
def dictFind {κ : Type} {α : Type} [DecidableEq κ] (m : List (κ × α)) (k : κ) :
    Option α :=
  match m with
  | [] => none
  | (k0, v) :: rest => if k0 = k then some v else dictFind rest k

/-- Association-list insertion with Python `dict` semantics: overwriting an
existing key keeps its position, a new key is appended at the end. -/
def dictInsert {κ : Type} {α : Type} [DecidableEq κ] (m : List (κ × α)) (k : κ)
    (v : α) : List (κ × α) :=
  match m with
  | [] => [(k, v)]
  | (k0, v0) :: rest =>
      if k0 = k then (k0, v) :: rest else (k0, v0) :: dictInsert rest k v

/-- The result of `SitesHelper().get_indexer(domain)` (host application,
external to this repository): `None`, or a site dict whose `id` entry may
itself be missing.  The resolver is passed in as a function parameter. -/
structure SiteInfo where
  id : Option Nat
  deriving DecidableEq, Repr

/-- A local MoviePilot site object (`app.db.models.site.Site`), restricted
to the attributes the plugins read. -/
structure Site where
  id : Nat
  name : String
  pri : Nat
  cookie : String
  ua : String
  proxy : Bool
  deriving DecidableEq, Repr

/-- A value of `ProwlarrSearch._indexers_cache`:
`{"prowlarr_id": ..., "name": ..., "url": ...}`. -/
structure CacheEntry where
  prowlarr_id : Nat
  name : Option String
  url : String
  deriving DecidableEq, Repr

/-- One iteration of the cache-rebuild loop of
`ProwlarrSearch._refresh_indexers_cache` (lines 130-159): skip indexers
with a falsy `id`, skip indexers without a truthy `baseUrl` field, derive
the domain, resolve it to a local site, and store the entry under the
site's id when the site and its id are truthy. -/
def refreshStep (resolve : String → Option SiteInfo)
    (cache : List (Nat × CacheEntry)) (indexer : RawIndexer) :
    List (Nat × CacheEntry) :=
  match indexer.id with
  | none => cache
  | some indexerId =>
    if indexerId = 0 then cache
    else
      match findBaseUrlValue indexer.fields with
      | none => cache
      | some rawUrl =>
        let baseUrl := stripSlashes rawUrl
        let domain := get_url_domain baseUrl
        match resolve domain with
        | none => cache
        | some siteInfo =>
          match siteInfo.id with
          | none => cache
          | some siteId =>
            if siteId = 0 then cache
            else dictInsert cache siteId
              { prowlarr_id := indexerId, name := indexer.name, url := baseUrl }

/-- The cache contents built by a full pass of the rebuild loop, starting
from the cleared dictionary (`self._indexers_cache = {}`). -/
def refreshEntries (resolve : String → Option SiteInfo)
    (indexers : List RawIndexer) : List (Nat × CacheEntry) :=
  indexers.foldl (refreshStep resolve) []

/-- Mutable state of the `ProwlarrSearch` plugin instance. -/
structure SearchPluginState where
  enabled : Bool
  prowlarrUrl : String
  apiKey : String
  proxyFlag : Bool
  indexersCache : List (Nat × CacheEntry)
  cacheExpires : Int
  cacheTtl : Int
  deriving DecidableEq, Repr

/-- `ProwlarrSearch.get_state`: enabled and both the URL and the API key
configured (truthy). -/
def searchGetState (st : SearchPluginState) : Bool :=
  st.enabled && st.prowlarrUrl ≠ "" && st.apiKey ≠ ""

/-- Outcome of a `RequestUtils(...).get_res(url)` call: the transport may
raise, return no response, or return a response with a status code and a
parsed JSON body. -/
inductive ResOutcome (α : Type) where
  | exc
  | noResp
  | resp (status : Nat) (body : α)
  deriving DecidableEq, Repr

/-- `ProwlarrSearch._get_prowlarr_indexers`: empty list unless the
configuration is complete and the request yields a 200 response. -/
def getProwlarrIndexers (st : SearchPluginState)
    (o : ResOutcome (List RawIndexer)) : List RawIndexer :=
  if st.prowlarrUrl = "" ∨ st.apiKey = "" then []
  else
    match o with
    | .exc => []
    | .noResp => []
    | .resp status body => if status = 200 then body else []

/-- `ProwlarrSearch._refresh_indexers_cache` as a state transition: when
the fetched indexer list is falsy the method returns early and the state
is untouched; otherwise the cache is rebuilt from scratch and the expiry
is set to `now + ttl`. -/
def refreshIndexersCache (resolve : String → Option SiteInfo) (now : Int)
    (fetched : List RawIndexer) (st : SearchPluginState) : SearchPluginState :=
  if fetched = [] then st
  else
    { st with
      indexersCache := refreshEntries resolve fetched
      cacheExpires := now + st.cacheTtl }

/-- The successive values of `self._indexers_cache` observable during one
run of `_refresh_indexers_cache`: the pre-rebuild value, then (when the
fetch produced indexers) the cleared dictionary followed by the value
after each loop iteration.  The loop mutates the shared attribute in
place (`self._indexers_cache = {}` then per-iteration insertions), so
each of these values is visible to a concurrent reader. -/
def refreshTrace (resolve : String → Option SiteInfo)
    (fetched : List RawIndexer) (old : List (Nat × CacheEntry)) :
    List (List (Nat × CacheEntry)) :=
  if fetched = [] then [old]
  else old :: List.scanl (refreshStep resolve) [] fetched

/-- The cache-expiry check of `ProwlarrSearch.intercept_search` line 83:
`time.time() > self._cache_expires` (strict). -/
def cacheExpired (now expires : Int) : Bool :=
  expires < now

/-- A raw search result record returned by `GET /api/v1/search`,
restricted to the keys read by `_convert_prowlarr_results`. -/
structure RawResult where
  indexerId : Option Nat
  title : Option String
  description : Option String
  downloadUrl : Option String
  infoUrl : Option String
  size : Option Int
  seeders : Option Int
  leechers : Option Int
  grabs : Option Int
  publishDate : Option String
  imdbId : Option String
  categories : Option (List String)
  deriving DecidableEq, Repr

/-- `app.schemas.TorrentInfo`, restricted to the attributes the plugin
assigns.  A fresh `TorrentInfo()` has every attribute absent (`none`); an
assignment stores `some`. -/
structure TorrentInfo where
  site : Option String := none
  site_order : Option Nat := none
  site_cookie : Option String := none
  site_ua : Option String := none
  site_proxy : Option Bool := none
  site_id : Option Nat := none
  title : Option String := none
  description : Option String := none
  enclosure : Option String := none
  page_url : Option String := none
  size : Option Int := none
  seeders : Option Int := none
  peers : Option Int := none
  grabs : Option Int := none
  pubdate : Option String := none
  imdbid : Option String := none
  category : Option String := none
  deriving DecidableEq, Repr

/-- The reverse lookup in `_convert_prowlarr_results` (lines 248-252):
iterate the cache in insertion order and return the first site id whose
entry has the given `prowlarr_id`. -/
def findSiteIdOfProwlarrId (cache : List (Nat × CacheEntry)) (pid : Nat) :
    Option Nat :=
  match cache with
  | [] => none
  | (sid, entry) :: rest =>
      if entry.prowlarr_id = pid then some sid
      else findSiteIdOfProwlarrId rest pid

/-- `site_map = {site.id: site for site in sites}`. -/
def buildSiteMap (sites : List Site) : List (Nat × Site) :=
  sites.foldl (fun m s => dictInsert m s.id s) []

/-- The `TorrentInfo` built by the per-record loop of
`_convert_prowlarr_results` (lines 260-289) for a record `r` attributed to
the site `site` found under cache key `siteId`: field-by-field assignments
with Python `.get` defaults and truthiness checks. -/
def mkTorrentOf (r : RawResult) (siteId : Nat) (site : Site) : TorrentInfo :=
  { site := some site.name
    site_order := some site.pri
    site_cookie := some site.cookie
    site_ua := some site.ua
    site_proxy := some site.proxy
    site_id := some siteId
    title := some (r.title.getD "")
    description := some (r.description.getD "")
    enclosure := some (r.downloadUrl.getD "")
    page_url := some (r.infoUrl.getD "")
    size := some (r.size.getD 0)
    seeders := some (r.seeders.getD 0)
    peers := some (if pyTruthyInt r.leechers then r.leechers.getD 0 else 0)
    grabs := some (if pyTruthyInt r.grabs then r.grabs.getD 0 else 0)
    pubdate := if pyTruthyStr r.publishDate then r.publishDate else none
    imdbid := if pyTruthyStr r.imdbId then r.imdbId else none
    category :=
      match r.categories.getD [] with
      | [] => none
      | cs => some (String.intercalate "," cs) }

/-- The body of the per-record loop of `_convert_prowlarr_results`
(lines 240-292): `none` models `continue` (record skipped), `some`
the `TorrentInfo` appended for the record. -/
def convertRecord (cache : List (Nat × CacheEntry)) (siteMap : List (Nat × Site))
    (r : RawResult) : Option TorrentInfo :=
  match r.indexerId with
  | none => none
  | some indexerId =>
    if indexerId = 0 then none
    else
      match findSiteIdOfProwlarrId cache indexerId with
      | none => none
      | some siteId =>
        if siteId = 0 then none
        else
          match dictFind siteMap siteId with
          | none => none
          | some site => some (mkTorrentOf r siteId site)

/-- `ProwlarrSearch._convert_prowlarr_results`: convert each record,
skipping (never aborting on) records that cannot be mapped. -/
def convertProwlarrResults (cache : List (Nat × CacheEntry))
    (results : List RawResult) (sites : List Site) : List TorrentInfo :=
  results.filterMap (convertRecord cache (buildSiteMap sites))

/-- `ProwlarrSearch._search_with_prowlarr`: empty result on empty keyword
or site list, on an empty delegated indexer-id set, and on every failed
request (raised exception, missing response, non-200 status); otherwise
the converted results.  No case raises. -/
def searchWithProwlarr (st : SearchPluginState) (keyword : String)
    (sites : List Site) (o : ResOutcome (List RawResult)) : List TorrentInfo :=
  if keyword = "" ∨ sites = [] then []
  else
    let indexerIds := sites.filterMap fun s =>
      (dictFind st.indexersCache s.id).map CacheEntry.prowlarr_id
    if indexerIds = [] then []
    else
      match o with
      | .exc => []
      | .noResp => []
      | .resp status body =>
          if status ≠ 200 then []
          else convertProwlarrResults st.indexersCache body sites

/-- The mutable fields of the `SearchTorrent` chain event's data that
`intercept_search` reads and writes (`keyword`, `sites`, `torrents`).
A falsy `torrents` attribute is modelled as the empty list. -/
structure EventData where
  keyword : String
  sites : List Site
  torrents : List TorrentInfo
  deriving DecidableEq, Repr

/-- `ProwlarrSearch.intercept_search` (lines 63-113).  Network effects are
passed in: `listOutcome` is the outcome of the indexer-list request made
by a cache refresh (if one happens) and `searchOutcome` the outcome of
the search request (if one happens).  Returns the updated plugin state
and the updated event data. -/
def interceptSearch (resolve : String → Option SiteInfo) (now : Int)
    (listOutcome : ResOutcome (List RawIndexer))
    (searchOutcome : ResOutcome (List RawResult))
    (st : SearchPluginState) (ev : EventData) :
    SearchPluginState × EventData :=
  if ¬ searchGetState st then (st, ev)
  else if ev.keyword = "" ∨ ev.sites = [] then (st, ev)
  else
    let st1 :=
      if cacheExpired now st.cacheExpires then
        refreshIndexersCache resolve now (getProwlarrIndexers st listOutcome) st
      else st
    let prowlarrSites := ev.sites.filter fun s =>
      (dictFind st1.indexersCache s.id).isSome
    let otherSites := ev.sites.filter fun s =>
      ¬ (dictFind st1.indexersCache s.id).isSome
    if prowlarrSites = [] then (st1, ev)
    else
      let results := searchWithProwlarr st1 ev.keyword prowlarrSites searchOutcome
      let newTorrents := if results ≠ [] then ev.torrents ++ results else ev.torrents
      (st1, { ev with torrents := newTorrents, sites := otherSites })

/-- Python `f"prowlarr_{indexer_id}"` where `indexer_id` may be `None`. -/
def pyFormatId : Option Nat → String
  | none => "prowlarr_None"
  | some n => "prowlarr_" ++ toString n

/-- The `search.paths` element of a generated indexer configuration. -/
structure SearchPathConf where
  path : String
  method : String
  deriving DecidableEq, Repr

/-- The `search` block of a generated indexer configuration. -/
structure SearchConf where
  paths : List SearchPathConf
  apikey : String
  indexerIds : Option Nat
  query : String
  deriving DecidableEq, Repr

/-- The constant `torrents.fields` selector table of a generated indexer
configuration (field name, JSON selector). -/
def torrentsFieldSelectors : List (String × String) :=
  [("title", "title"), ("description", "description"),
   ("download", "downloadUrl"), ("size", "size"), ("seeders", "seeders"),
   ("leechers", "leechers"), ("grabs", "grabs"),
   ("date_added", "publishDate"), ("imdbid", "imdbId")]

/-- A MoviePilot indexer configuration built by
`ProwlarrIndexer._get_indexer_config`.  The constant `torrents.list`
selector block (`selector = "json"`, `result_path = "$..[]"`) and the
selector table `torrentsFieldSelectors` are the same for every indexer
and are not repeated per entry. -/
structure IndexerConfig where
  id : String
  name : Option String
  domain : String
  encoding : String
  public : Bool
  proxy : Bool
  result_num : Nat
  timeout : Nat
  search : SearchConf
  deriving DecidableEq, Repr

/-- Mutable state of the `ProwlarrIndexer` plugin instance.  The
`_indexers` dictionary is keyed by `indexer.get("id")`, which may be
`None`. -/
structure IndexerPluginState where
  enabled : Bool
  prowlarrUrl : String
  apiKey : String
  proxyFlag : Bool
  indexers : List (Option Nat × IndexerConfig)
  autoUpdate : Bool
  updateInterval : Int
  lastUpdateTime : Int
  deriving DecidableEq, Repr

/-- `ProwlarrIndexer._get_indexer_config` (lines 137-221): `none` when the
indexer has no truthy `baseUrl` field, otherwise the MoviePilot
configuration with `domain` set to the stripped base URL. -/
def getIndexerConfig (st : IndexerPluginState) (indexer : RawIndexer) :
    Option IndexerConfig :=
  match findBaseUrlValue indexer.fields with
  | none => none
  | some rawUrl =>
    let baseUrl := stripSlashes rawUrl
    some
      { id := pyFormatId indexer.id
        name := indexer.name
        domain := baseUrl
        encoding := "UTF-8"
        public := ¬ (indexer.privacy.getD "private" = "private")
        proxy := st.proxyFlag
        result_num := 100
        timeout := 30
        search :=
          { paths := [{ path := st.prowlarrUrl ++ "/api/v1/search", method := "get" }]
            apikey := st.apiKey
            indexerIds := indexer.id
            query := "{keyword}" } }

/-- `ProwlarrIndexer._get_indexer_domain` (lines 117-135): the domain of
the first truthy `baseUrl` field when one exists (even when that domain
is empty — no fallback is attempted then), else the lowercased
`definitionName` when truthy, else `none`. -/
def getIndexerDomain (indexer : RawIndexer) : Option String :=
  match findBaseUrlValue indexer.fields with
  | some rawUrl => some (get_url_domain rawUrl)
  | none =>
      if pyTruthyStr indexer.definitionName then
        some (pyLower (indexer.definitionName.getD ""))
      else none

/-- Python truthiness of the value returned by `_get_indexer_domain`
(used by `if not domain: continue`). -/
def domainTruthy : Option String → Bool
  | none => false
  | some s => s ≠ ""

/-- One iteration of the indexer loop of `ProwlarrIndexer.update_indexers`
(lines 87-109), threading the `_indexers` dictionary and the list of
`(domain, config)` registrations made via `siteshelper.add_indexer`.
A disabled indexer is skipped; an indexer without a configuration is
skipped; the configuration is cached *before* the domain check, and only
the registration is skipped when the domain is falsy. -/
def updateStep (st : IndexerPluginState)
    (acc : List (Option Nat × IndexerConfig) × List (String × IndexerConfig))
    (indexer : RawIndexer) :
    List (Option Nat × IndexerConfig) × List (String × IndexerConfig) :=
  if ¬ indexer.enable then acc
  else
    match getIndexerConfig st indexer with
    | none => acc
    | some config =>
      let cached := dictInsert acc.1 indexer.id config
      let domain := getIndexerDomain indexer
      if domainTruthy domain then
        (cached, acc.2 ++ [(domain.getD "", config)])
      else (cached, acc.2)

/-- Outcome of a `requests.get(...)` call: either the transport raises or
a response with a status code and parsed JSON body is returned. -/
inductive ReqOutcome (α : Type) where
  | exc
  | resp (status : Nat) (body : α)
  deriving DecidableEq, Repr

/-- `ProwlarrIndexer.update_indexers` (lines 54-115) as a state
transition; the second component is the list of `(domain, config)` site
registrations performed.  The update is silently skipped (state
unchanged, no registrations) when the plugin is disabled or
unconfigured, when the previous update is more recent than
`update_interval` hours, and when the listing request fails or returns a
falsy body; no case raises. -/
def update_indexers (st : IndexerPluginState) (now : Int)
    (o : ReqOutcome (List RawIndexer)) :
    IndexerPluginState × List (String × IndexerConfig) :=
  if ¬ (st.enabled && st.prowlarrUrl ≠ "" && st.apiKey ≠ "") then (st, [])
  else if st.lastUpdateTime ≠ 0 ∧ now - st.lastUpdateTime < st.updateInterval * 3600 then
    (st, [])
  else
    match o with
    | .exc => (st, [])
    | .resp status body =>
      if status ≠ 200 then (st, [])
      else if body = [] then (st, [])
      else
        let built := body.foldl (updateStep st) ([], [])
        ({ st with indexers := built.1, lastUpdateTime := now }, built.2)

/-- The JSON payload returned by the plugin's API endpoint. -/
structure ApiResult where
  success : Bool
  message : String
  deriving DecidableEq, Repr

/-- `ProwlarrIndexer.api_update_indexers` (lines 271-276): run
`update_indexers` and unconditionally return `{"success": True,
"message": "索引器更新完成"}`. -/
def api_update_indexers (st : IndexerPluginState) (now : Int)
    (o : ReqOutcome (List RawIndexer)) :
    (IndexerPluginState × List (String × IndexerConfig)) × ApiResult :=
  (update_indexers st now o, { success := true, message := "索引器更新完成" })

/-! ### Concrete fixtures used by counterexamples and witnesses -/

/-- A local site with id 1. -/
def siteA : Site :=
  { id := 1, name := "SiteA", pri := 1, cookie := "cookieA", ua := "uaA", proxy := false }

/-- A local site with id 2, not present in any cache fixture. -/
def siteB : Site :=
  { id := 2, name := "SiteB", pri := 2, cookie := "cookieB", ua := "uaB", proxy := true }

/-- A cache entry pointing at Prowlarr indexer 10. -/
def entryA : CacheEntry :=
  { prowlarr_id := 10, name := some "IdxA", url := "http://a.example" }

/-- A configured, enabled search-plugin state whose cache maps site 1 to
Prowlarr indexer 10 and expires at time 1000. -/
def stSearch : SearchPluginState :=
  { enabled := true, prowlarrUrl := "http://prowlarr", apiKey := "key"
    proxyFlag := false, indexersCache := [(1, entryA)], cacheExpires := 1000
    cacheTtl := 3600 }

/-- The same search-plugin state as `stSearch` but with the cache already
expired at time 100 (`cacheExpires = 0`). -/
def stExpired : SearchPluginState :=
  { enabled := true, prowlarrUrl := "http://prowlarr", apiKey := "key"
    proxyFlag := false, indexersCache := [(1, entryA)], cacheExpires := 0
    cacheTtl := 3600 }

/-- An event carrying keyword "foo" and candidate sites `[siteA, siteB]`. -/
def evAB : EventData := { keyword := "foo", sites := [siteA, siteB], torrents := [] }

/-- An event carrying keyword "foo" and candidate site `[siteA]`. -/
def evA : EventData := { keyword := "foo", sites := [siteA], torrents := [] }

/-- A site resolver that knows no domain. -/
def resolveNone : String → Option SiteInfo := fun _ => none

/-- A site resolver mapping every domain to the site with id 2. -/
def resolveSite2 : String → Option SiteInfo := fun _ => some { id := some 2 }

/-- A site resolver mapping every domain to the site with id 7. -/
def resolveSite7 : String → Option SiteInfo := fun _ => some { id := some 7 }

/-- An enabled remote indexer with id 20 and a `baseUrl` field. -/
def idxB : RawIndexer :=
  { id := some 20, name := some "IdxB", enable := true, definitionName := none
    privacy := some "private"
    fields := [{ name := "baseUrl", value := some "http://b.example" }] }

/-- A *disabled* remote indexer with id 30 and a `baseUrl` field. -/
def idxDisabled : RawIndexer :=
  { id := some 30, name := some "Dis", enable := false, definitionName := none
    privacy := some "private"
    fields := [{ name := "baseUrl", value := some "http://d.example" }] }

/-- An enabled remote indexer whose `baseUrl` value `"http://"` has no host
component, and which has no `definitionName`. -/
def idxNoDomain : RawIndexer :=
  { id := some 1, name := some "X", enable := true, definitionName := none
    privacy := some "private"
    fields := [{ name := "baseUrl", value := some "http://" }] }

/-- An enabled remote indexer with no `baseUrl` field but with definition
name `"Example"`. -/
def idxDefName : RawIndexer :=
  { id := some 3, name := some "N", enable := true
    definitionName := some "Example", privacy := some "private", fields := [] }

/-- A configured, enabled indexer-plugin state that has never updated. -/
def stIdx : IndexerPluginState :=
  { enabled := true, prowlarrUrl := "http://prowlarr", apiKey := "key"
    proxyFlag := false, indexers := [], autoUpdate := false
    updateInterval := 12, lastUpdateTime := 0 }

/-- A disabled indexer-plugin state. -/
def stIdxDisabled : IndexerPluginState :=
  { enabled := false, prowlarrUrl := "http://prowlarr", apiKey := "key"
    proxyFlag := false, indexers := [], autoUpdate := false
    updateInterval := 12, lastUpdateTime := 0 }

/-- A raw search result from indexer 10 with every optional field of
interest present. -/
def rGood : RawResult :=
  { indexerId := some 10, title := some "T", description := none
    downloadUrl := some "magnet:x", infoUrl := none, size := some 100
    seeders := some 5, leechers := some 2, grabs := none
    publishDate := some "2024-01-01", imdbId := none
    categories := some ["Movies", "HD"] }

/-- A raw search result whose indexer id 99 maps to no cached site. -/
def rBad : RawResult :=
  { indexerId := some 99, title := some "B", description := none
    downloadUrl := none, infoUrl := none, size := none, seeders := none
    leechers := none, grabs := none, publishDate := none, imdbId := none
    categories := none }

/-- A raw search result from indexer 10 with every optional field absent. -/
def rMissing : RawResult :=
  { indexerId := some 10, title := none, description := none
    downloadUrl := none, infoUrl := none, size := none, seeders := none
    leechers := none, grabs := none, publishDate := none, imdbId := none
    categories := none }

/-- The conversion of `rGood` against cache `[(1, entryA)]` and site list
`[siteA]`. -/
def tGood : TorrentInfo :=
  { site := some "SiteA", site_order := some 1, site_cookie := some "cookieA"
    site_ua := some "uaA", site_proxy := some false, site_id := some 1
    title := some "T", description := some "", enclosure := some "magnet:x"
    page_url := some "", size := some 100, seeders := some 5, peers := some 2
    grabs := some 0, pubdate := some "2024-01-01", imdbid := none
    category := some "Movies,HD" }

/-- The conversion of `rMissing` against cache `[(1, entryA)]` and site
list `[siteA]`: numeric fields defaulted to 0, optional strings absent. -/
def tMissing : TorrentInfo :=
  { site := some "SiteA", site_order := some 1, site_cookie := some "cookieA"
    site_ua := some "uaA", site_proxy := some false, site_id := some 1
    title := some "", description := some "", enclosure := some ""
    page_url := some "", size := some 0, seeders := some 0, peers := some 0
    grabs := some 0, pubdate := none, imdbid := none, category := none }

/-- The MoviePilot configuration `_get_indexer_config` builds for `idxB`
under the state `stIdx`. -/
def cfgB : IndexerConfig :=
  { id := "prowlarr_20", name := some "IdxB", domain := "http://b.example"
    encoding := "UTF-8", public := false, proxy := false, result_num := 100
    timeout := 30
    search :=
      { paths := [{ path := "http://prowlarr/api/v1/search", method := "get" }]
        apikey := "key", indexerIds := some 20, query := "{keyword}" } }

/-- Whether a `get_res` outcome counts as a failed request in
`_search_with_prowlarr`: raised exception, falsy response, or non-200
status code. -/
def resFailed {α : Type} : ResOutcome α → Bool
  | .exc => true
  | .noResp => true
  | .resp status _ => status ≠ 200

/-! ### Helper lemmas -/

/-- A failed search request (exception, missing response, or non-200
status) makes `_search_with_prowlarr` return the empty list. -/
theorem searchWithProwlarr_failed (o : ResOutcome (List RawResult))
    (h : resFailed o = true) (st : SearchPluginState) (kw : String)
    (sites : List Site) : searchWithProwlarr st kw sites o = [] := by
  unfold searchWithProwlarr
  split
  · rfl
  · dsimp only
    split
    · rfl
    · match o, h with
      | .exc, _ => rfl
      | .noResp, _ => rfl
      | .resp status body, h =>
        have hs : status ≠ 200 := by simpa [resFailed] using h
        simp [hs]

/-- Lookup after Python-style dictionary insertion. -/
theorem dictFind_dictInsert {κ α : Type} [DecidableEq κ]
    (m : List (κ × α)) (k k' : κ) (v : α) :
    dictFind (dictInsert m k v) k' = if k = k' then some v else dictFind m k' := by
  induction m with
  | nil => simp [dictInsert, dictFind]
  | cons p rest ih =>
    obtain ⟨k0, v0⟩ := p
    by_cases h0 : k0 = k
    · subst h0
      by_cases hk : k0 = k' <;> simp [dictInsert, dictFind, hk]
    · by_cases h1 : k0 = k'
      · subst h1
        have h2 : k ≠ k0 := fun h => h0 h.symm
        simp [dictInsert, dictFind, h0, h2]
      · by_cases h2 : k = k'
        · subst h2
          simp [dictInsert, dictFind, h0, h1, ih]
        · simp [dictInsert, dictFind, h0, h1, h2, ih]

/-- Auxiliary fold invariant for `buildSiteMap`. -/
theorem dictFind_buildSiteMap_aux (sites : List Site) (acc : List (Nat × Site))
    (k : Nat) (s : Site) :
    dictFind (sites.foldl (fun m s0 => dictInsert m s0.id s0) acc) k = some s →
    (s ∈ sites ∧ s.id = k) ∨ dictFind acc k = some s := by
  induction sites generalizing acc with
  | nil => intro h; exact Or.inr h
  | cons a l ih =>
    intro h
    rcases ih (dictInsert acc a.id a) h with h1 | h2
    · exact Or.inl ⟨List.mem_cons_of_mem _ h1.1, h1.2⟩
    · rw [dictFind_dictInsert] at h2
      by_cases ha : a.id = k
      · rw [if_pos ha] at h2
        injection h2 with h2
        subst h2
        exact Or.inl ⟨List.mem_cons_self _ _, ha⟩
      · rw [if_neg ha] at h2
        exact Or.inr h2

/-- A successful lookup in the site map built by
`{site.id: site for site in sites}` returns a site from `sites` stored
under its own id. -/
theorem dictFind_buildSiteMap (sites : List Site) (k : Nat) (s : Site)
    (h : dictFind (buildSiteMap sites) k = some s) : s ∈ sites ∧ s.id = k := by
  rcases dictFind_buildSiteMap_aux sites [] k s h with h1 | h2
  · exact h1
  · simp [dictFind] at h2

/-- Inversion of `convertRecord`: an emitted record comes from a site
found in the site map, and is exactly `mkTorrentOf`. -/
theorem convertRecord_inv (cache : List (Nat × CacheEntry))
    (siteMap : List (Nat × Site)) (r : RawResult) (t : TorrentInfo)
    (h : convertRecord cache siteMap r = some t) :
    ∃ siteId site, dictFind siteMap siteId = some site
      ∧ t = mkTorrentOf r siteId site := by
  cases hIdx : r.indexerId with
  | none => simp [convertRecord, hIdx] at h
  | some indexerId =>
    by_cases h0 : indexerId = 0
    · simp [convertRecord, hIdx, h0] at h
    · cases hFind : findSiteIdOfProwlarrId cache indexerId with
      | none => simp [convertRecord, hIdx, h0, hFind] at h
      | some siteId =>
        by_cases hs0 : siteId = 0
        · simp [convertRecord, hIdx, h0, hFind, hs0] at h
        · cases hSite : dictFind siteMap siteId with
          | none => simp [convertRecord, hIdx, h0, hFind, hs0, hSite] at h
          | some site =>
            refine ⟨siteId, site, hSite, ?_⟩
            simp [convertRecord, hIdx, h0, hFind, hs0, hSite] at h
            exact h.symm

/-- The head value is an element of any `scanl`. -/
theorem scanl_self_mem {α β : Type} (f : β → α → β) (b : β) (l : List α) :
    b ∈ List.scanl f b l := by
  cases l <;> simp [List.scanl_nil, List.scanl_cons]

/-- `scanl` never produces the empty list. -/
theorem scanl_ne_nil {α β : Type} (f : β → α → β) (b : β) (l : List α) :
    List.scanl f b l ≠ [] := by
  cases l <;> simp [List.scanl_nil, List.scanl_cons]

/-- The last element of a `scanl` is the corresponding `foldl`. -/
theorem scanl_getLast_foldl {α β : Type} (f : β → α → β) (b : β) (l : List α) :
    (List.scanl f b l).getLast? = some (l.foldl f b) := by
  induction l generalizing b with
  | nil => simp [List.scanl_nil]
  | cons a l ih =>
    rw [List.scanl_cons, List.singleton_append, List.foldl_cons, ← ih (f b a)]
    cases hl : List.scanl f (f b a) l with
    | nil => exact absurd hl (scanl_ne_nil f (f b a) l)
    | cons x xs => rw [List.getLast?_cons_cons]

/-- A truthy optional domain yields a non-empty string under `getD`. -/
theorem domainTruthy_getD {d : Option String} (h : domainTruthy d = true) :
    d.getD "" ≠ "" := by
  cases d with
  | none => simp [domainTruthy] at h
  | some s => simpa [domainTruthy] using h

/-- One `update_indexers` loop iteration preserves the invariant that all
registered domains are non-empty. -/
theorem updateStep_snd_domains (st : IndexerPluginState)
    (acc : List (Option Nat × IndexerConfig) × List (String × IndexerConfig))
    (indexer : RawIndexer) (h : ∀ p ∈ acc.2, p.1 ≠ "") :
    ∀ p ∈ (updateStep st acc indexer).2, p.1 ≠ "" := by
  unfold updateStep
  split
  · exact h
  · split
    · exact h
    · dsimp only
      split
      next hd =>
        intro p hp
        rcases List.mem_append.1 hp with h1 | h2
        · exact h p h1
        · have hp2 : p = ((getIndexerDomain indexer).getD "", _) := List.mem_singleton.1 h2
          rw [hp2]
          exact domainTruthy_getD hd
      next => exact h

/-- The non-empty-domain invariant holds after the whole indexer loop. -/
theorem foldl_updateStep_snd_domains (st : IndexerPluginState)
    (l : List RawIndexer)
    (acc : List (Option Nat × IndexerConfig) × List (String × IndexerConfig))
    (h : ∀ p ∈ acc.2, p.1 ≠ "") :
    ∀ p ∈ (l.foldl (updateStep st) acc).2, p.1 ≠ "" := by
  induction l generalizing acc with
  | nil => exact h
  | cons a l ih => exact ih _ (updateStep_snd_domains st acc a h)

/-! ### Claims -/

/-- C1 (counterexample): the claim says that when the remote search call
fails, every candidate site — including those selected for delegation —
is handed back to the caller.  With site 1 cached and candidates
`[siteA, siteB]`, a raised transport exception leaves the event's site
list as `[siteB]` only: the delegated `siteA` is dropped, not the full
original list `evAB.sites = [siteA, siteB]`. -/
theorem c1_failure_drops_delegated_sites :
    (interceptSearch resolveNone 500 .exc .exc stSearch evAB).2.sites = [siteB]
    ∧ [siteB] ≠ evAB.sites := by decide

/-- C1 (amended): on a failed remote search call (exception, missing
response, or non-2xx status) `intercept_search` adds no torrent results
and raises nothing, but the remaining site list is only a sublist of the
candidates: the sites selected for delegation are removed even though the
delegation produced nothing. -/
theorem c1_amended_failed_search_adds_nothing_keeps_sublist
    (resolve : String → Option SiteInfo) (now : Int)
    (listO : ResOutcome (List RawIndexer)) (o : ResOutcome (List RawResult))
    (st : SearchPluginState) (ev : EventData) (hfail : resFailed o = true) :
    (interceptSearch resolve now listO o st ev).2.torrents = ev.torrents
    ∧ ((interceptSearch resolve now listO o st ev).2.sites).Sublist ev.sites := by
  unfold interceptSearch
  split
  · exact ⟨rfl, List.Sublist.refl _⟩
  · split
    · exact ⟨rfl, List.Sublist.refl _⟩
    · dsimp only
      split
      all_goals
        split
        · exact ⟨rfl, List.Sublist.refl _⟩
        · refine ⟨?_, List.filter_sublist _⟩
          simp [searchWithProwlarr_failed o hfail]

/-- C1 (witness): concrete instance of the amended theorem. -/
theorem c1_amended_witness :
    (interceptSearch resolveNone 500 .exc .exc stSearch evA).2.torrents = evA.torrents
    ∧ ((interceptSearch resolveNone 500 .exc .exc stSearch evA).2.sites).Sublist evA.sites :=
  c1_amended_failed_search_adds_nothing_keeps_sublist resolveNone 500 .exc .exc
    stSearch evA rfl

/-- C2 (counterexample): the claim says a reader always observes either the
complete pre-rebuild or the complete post-rebuild entry set.  With old
cache `[(1, entryA)]` and one fetched indexer resolving to site 2, the
in-place rebuild makes the cleared cache `[]` observable, which is
neither the old set nor the new set `refreshEntries resolveSite2 [idxB]`. -/
theorem c2_rebuild_not_atomic :
    ([] : List (Nat × CacheEntry)) ∈ refreshTrace resolveSite2 [idxB] [(1, entryA)]
    ∧ ([] : List (Nat × CacheEntry)) ≠ [(1, entryA)]
    ∧ ([] : List (Nat × CacheEntry)) ≠ refreshEntries resolveSite2 [idxB] := by
  decide

/-- C2 (amended): the rebuild is not an atomic swap — the observable
sequence of cache states starts with the old set, passes through the
cleared empty dictionary (and then per-insertion partial states), and
only its last state is the complete post-rebuild entry set. -/
theorem c2_amended_trace_clears_then_fills (resolve : String → Option SiteInfo)
    (fetched : List RawIndexer) (old : List (Nat × CacheEntry))
    (h : fetched ≠ []) :
    (refreshTrace resolve fetched old).head? = some old
    ∧ ([] : List (Nat × CacheEntry)) ∈ refreshTrace resolve fetched old
    ∧ (refreshTrace resolve fetched old).getLast?
        = some (refreshEntries resolve fetched) := by
  unfold refreshTrace
  rw [if_neg h]
  refine ⟨List.head?_cons, ?_, ?_⟩
  · exact List.mem_cons_of_mem _ (scanl_self_mem _ _ _)
  · cases hl : List.scanl (refreshStep resolve) [] fetched with
    | nil => exact absurd hl (scanl_ne_nil _ _ _)
    | cons x xs =>
      rw [List.getLast?_cons_cons, ← hl, scanl_getLast_foldl]
      rfl

/-- C2 (witness): concrete instance of the amended theorem. -/
theorem c2_amended_witness :
    (refreshTrace resolveSite2 [idxB] [(1, entryA)]).head? = some [(1, entryA)]
    ∧ ([] : List (Nat × CacheEntry)) ∈ refreshTrace resolveSite2 [idxB] [(1, entryA)]
    ∧ (refreshTrace resolveSite2 [idxB] [(1, entryA)]).getLast?
        = some (refreshEntries resolveSite2 [idxB]) :=
  c2_amended_trace_clears_then_fills resolveSite2 [idxB] [(1, entryA)] (by decide)

/-- C3 (counterexample): the claim says a remote indexer with a false
enabled flag contributes no cache entry in every rebuild.  The
`ProwlarrSearch` cache rebuild never reads the flag: the disabled indexer
`idxDisabled` (id 30) still produces a cache entry for site 7. -/
theorem c3_search_rebuild_ignores_enable_flag :
    idxDisabled.enable = false
    ∧ dictFind (refreshEntries resolveSite7 [idxDisabled]) 7
        = some { prowlarr_id := 30, name := some "Dis", url := "http://d.example" } := by
  decide

/-- C3 (amended): only `ProwlarrIndexer.update_indexers` excludes disabled
indexers (a disabled indexer leaves the loop state untouched: no config
cache entry and no site registration); the `ProwlarrSearch` cache rebuild
is entirely independent of the enabled flag. -/
theorem c3_amended_disabled_skipped_only_in_indexer_plugin
    (st : IndexerPluginState)
    (acc : List (Option Nat × IndexerConfig) × List (String × IndexerConfig))
    (indexer : RawIndexer) (resolve : String → Option SiteInfo)
    (cache : List (Nat × CacheEntry)) (b : Bool)
    (h : indexer.enable = false) :
    updateStep st acc indexer = acc
    ∧ refreshStep resolve cache indexer
        = refreshStep resolve cache { indexer with enable := b } := by
  constructor
  · unfold updateStep
    rw [h]
    simp
  · cases indexer
    rfl

/-- C3 (witness): concrete instance of the amended theorem. -/
theorem c3_amended_witness :
    updateStep stIdx ([], []) idxDisabled = ([], [])
    ∧ refreshStep resolveSite7 [] idxDisabled
        = refreshStep resolveSite7 [] { idxDisabled with enable := true } :=
  c3_amended_disabled_skipped_only_in_indexer_plugin stIdx ([], []) idxDisabled
    resolveSite7 [] true rfl

/-- C4 (counterexample): the claim says an indexer for which no domain can
be resolved is dropped entirely and never stored in any cache mapping.
`idxNoDomain` has `baseUrl = "http://"` (no host, so the spec-modelled
domain derivation yields the falsy `""`) and no definition name, yet
`update_indexers` stores its configuration in `_indexers` (the store
happens before the domain check); only the site registration is skipped. -/
theorem c4_unresolvable_domain_still_cached :
    domainTruthy (getIndexerDomain idxNoDomain) = false
    ∧ (update_indexers stIdx 100 (.resp 200 [idxNoDomain])).1.indexers ≠ []
    ∧ (update_indexers stIdx 100 (.resp 200 [idxNoDomain])).2 = [] := by
  decide

/-- C4 (amended): every site registration performed by `update_indexers`
carries a non-empty domain, but the `_indexers` configuration cache is
populated for every enabled indexer that has a configuration, regardless
of whether its domain resolves. -/
theorem c4_amended_registrations_nonempty_cache_unconditional
    (st : IndexerPluginState) (now : Int) (o : ReqOutcome (List RawIndexer))
    (acc : List (Option Nat × IndexerConfig) × List (String × IndexerConfig))
    (indexer : RawIndexer) (config : IndexerConfig)
    (henable : indexer.enable = true)
    (hconfig : getIndexerConfig st indexer = some config) :
    (∀ p ∈ (update_indexers st now o).2, p.1 ≠ "")
    ∧ (updateStep st acc indexer).1 = dictInsert acc.1 indexer.id config := by
  constructor
  · unfold update_indexers
    split
    · simp
    · split
      · simp
      · split
        · simp
        · dsimp only
          split
          · simp
          · split
            · simp
            · exact foldl_updateStep_snd_domains st _ ([], []) (by simp)
  · unfold updateStep
    rw [henable, hconfig, if_neg (by simp : ¬ ¬ (true = true))]
    dsimp only
    split <;> rfl

/-- C4 (witness): concrete instance of the amended theorem. -/
theorem c4_amended_witness :
    ("b.example" : String) ≠ ""
    ∧ (updateStep stIdx ([], []) idxB).1
        = dictInsert ([] : List (Option Nat × IndexerConfig)) idxB.id cfgB :=
  ⟨(c4_amended_registrations_nonempty_cache_unconditional stIdx 100
      (.resp 200 [idxB]) ([], []) idxB cfgB rfl (by decide)).1
      ("b.example", cfgB) (by decide),
   (c4_amended_registrations_nonempty_cache_unconditional stIdx 100
      (.resp 200 [idxB]) ([], []) idxB cfgB rfl (by decide)).2⟩

/-- C5 (counterexample): the claim says that during every rebuild an
indexer without a usable `baseUrl` field falls back to its lowercased
definition name.  `idxDefName` has no `baseUrl` field and definition name
`"Example"` (which `_get_indexer_domain` would turn into `"example"`),
yet the `ProwlarrSearch` cache rebuild skips it entirely — even with a
resolver mapping every domain to site 7, no entry is built. -/
theorem c5_no_definition_name_fallback_in_search_rebuild :
    findBaseUrlValue idxDefName.fields = none
    ∧ getIndexerDomain idxDefName = some "example"
    ∧ refreshEntries resolveSite7 [idxDefName] = [] := by
  decide

/-- C5 (amended): the definition-name fallback exists only in
`ProwlarrIndexer._get_indexer_domain`: when a truthy `baseUrl` field is
present its derived domain is returned unconditionally (no fallback even
when that domain is empty), otherwise the lowercased truthy
`definitionName` is used; the `ProwlarrSearch` cache rebuild has no
fallback at all and skips every indexer without a truthy `baseUrl`. -/
theorem c5_amended_fallback_only_in_indexer_plugin
    (indexer : RawIndexer) (resolve : String → Option SiteInfo)
    (cache : List (Nat × CacheEntry)) :
    (∀ v, findBaseUrlValue indexer.fields = some v →
        getIndexerDomain indexer = some (get_url_domain v))
    ∧ (findBaseUrlValue indexer.fields = none →
        getIndexerDomain indexer
          = (if pyTruthyStr indexer.definitionName then
              some (pyLower (indexer.definitionName.getD ""))
            else none))
    ∧ (findBaseUrlValue indexer.fields = none →
        refreshStep resolve cache indexer = cache) := by
  refine ⟨?_, ?_, ?_⟩
  · intro v hv
    simp [getIndexerDomain, hv]
  · intro hn
    simp [getIndexerDomain, hn]
  · intro hn
    unfold refreshStep
    split
    · rfl
    · split
      · rfl
      · rw [hn]

/-- C5 (witness): concrete instance of the amended theorem. -/
theorem c5_amended_witness :
    getIndexerDomain idxB = some (get_url_domain "http://b.example")
    ∧ refreshStep resolveSite7 [] idxDefName = [] :=
  ⟨(c5_amended_fallback_only_in_indexer_plugin idxB resolveSite7 []).1
      "http://b.example" (by decide),
   (c5_amended_fallback_only_in_indexer_plugin idxDefName resolveSite7 []).2.2
      (by decide)⟩

/-- C6: every torrent result emitted by `_convert_prowlarr_results`
carries the complete site identity (name, priority, cookie, user agent,
proxy flag, site id) of a site from the given site list, and a record
whose indexer id cannot be mapped is skipped without aborting the rest of
the batch. -/
theorem c6_results_carry_full_site_identity :
    (∀ (cache : List (Nat × CacheEntry)) (results : List RawResult)
        (sites : List Site) (t : TorrentInfo),
      t ∈ convertProwlarrResults cache results sites →
      ∃ s, s ∈ sites ∧ t.site = some s.name ∧ t.site_order = some s.pri
        ∧ t.site_cookie = some s.cookie ∧ t.site_ua = some s.ua
        ∧ t.site_proxy = some s.proxy ∧ t.site_id = some s.id)
    ∧ (∀ (cache : List (Nat × CacheEntry)) (results : List RawResult)
        (sites : List Site) (r : RawResult),
      convertRecord cache (buildSiteMap sites) r = none →
      convertProwlarrResults cache (r :: results) sites
        = convertProwlarrResults cache results sites) := by
  constructor
  · intro cache results sites t ht
    rw [convertProwlarrResults, List.mem_filterMap] at ht
    obtain ⟨r, _, hr⟩ := ht
    obtain ⟨siteId, site, hSite, rfl⟩ := convertRecord_inv _ _ _ _ hr
    obtain ⟨hmem, hid⟩ := dictFind_buildSiteMap sites siteId site hSite
    refine ⟨site, hmem, rfl, rfl, rfl, rfl, rfl, ?_⟩
    rw [hid]
    rfl
  · intro cache results sites r hr
    rw [convertProwlarrResults, convertProwlarrResults,
      List.filterMap_cons_none hr]

/-- C6 (witness): concrete instance — `rGood` converts to `tGood` carrying
`siteA`'s identity, and the unmappable `rBad` is skipped while the batch
continues. -/
theorem c6_witness :
    (∃ s, s ∈ [siteA] ∧ tGood.site = some s.name ∧ tGood.site_order = some s.pri
      ∧ tGood.site_cookie = some s.cookie ∧ tGood.site_ua = some s.ua
      ∧ tGood.site_proxy = some s.proxy ∧ tGood.site_id = some s.id)
    ∧ convertProwlarrResults [(1, entryA)] [rBad, rGood] [siteA]
        = convertProwlarrResults [(1, entryA)] [rGood] [siteA] :=
  ⟨c6_results_carry_full_site_identity.1 [(1, entryA)] [rGood] [siteA] tGood
      (by decide),
   c6_results_carry_full_site_identity.2 [(1, entryA)] [rGood] [siteA] rBad
      (by decide)⟩

/-- C7: a converted record defaults missing `seeders`, `leechers`, `grabs`
to 0 and leaves missing `imdbId` and `publishDate` absent (not empty, not
zero). -/
theorem c7_missing_numerics_zero_missing_strings_absent
    (cache : List (Nat × CacheEntry)) (siteMap : List (Nat × Site))
    (r : RawResult) (t : TorrentInfo)
    (h : convertRecord cache siteMap r = some t) :
    (r.seeders = none → t.seeders = some 0)
    ∧ (r.leechers = none → t.peers = some 0)
    ∧ (r.grabs = none → t.grabs = some 0)
    ∧ (r.imdbId = none → t.imdbid = none)
    ∧ (r.publishDate = none → t.pubdate = none) := by
  obtain ⟨siteId, site, hSite, rfl⟩ := convertRecord_inv _ _ _ _ h
  refine ⟨?_, ?_, ?_, ?_, ?_⟩ <;> intro hf <;>
    simp [mkTorrentOf, hf, pyTruthyInt, pyTruthyStr]

/-- C7 (witness): concrete instance at `rMissing`, whose optional fields
are all absent. -/
theorem c7_witness :
    tMissing.seeders = some 0 ∧ tMissing.peers = some 0
    ∧ tMissing.grabs = some 0 ∧ tMissing.imdbid = none
    ∧ tMissing.pubdate = none := by
  have h := c7_missing_numerics_zero_missing_strings_absent [(1, entryA)]
    (buildSiteMap [siteA]) rMissing tMissing (by decide)
  exact ⟨h.1 rfl, h.2.1 rfl, h.2.2.1 rfl, h.2.2.2.1 rfl, h.2.2.2.2 rfl⟩

/-- C8 (counterexample): the claim says the categories field of a
normalized result is an ordered list of strings, empty when the raw field
is absent.  The record `rMissing` (no raw categories) converts
successfully, but its `category` field is absent (`none`) rather than a
present empty sequence (whose comma-joined representation would be
`String.intercalate "," [] = ""`). -/
theorem c8_absent_categories_left_absent :
    (convertRecord [(1, entryA)] (buildSiteMap [siteA]) rMissing).map
        TorrentInfo.category = some none
    ∧ (some (none : Option String))
        ≠ some (some (String.intercalate "," ([] : List String))) := by
  decide

/-- C8 (amended): the converted result's `category` field is the single
comma-joined string of the raw categories when they are present and
non-empty, and is left absent when the raw field is absent or empty — it
is never a list value. -/
theorem c8_amended_categories_comma_joined_or_absent
    (cache : List (Nat × CacheEntry)) (siteMap : List (Nat × Site))
    (r : RawResult) (t : TorrentInfo)
    (h : convertRecord cache siteMap r = some t) :
    ((r.categories = none ∨ r.categories = some []) → t.category = none)
    ∧ (∀ cs, r.categories = some cs → cs ≠ [] →
        t.category = some (String.intercalate "," cs)) := by
  obtain ⟨siteId, site, hSite, rfl⟩ := convertRecord_inv _ _ _ _ h
  constructor
  · rintro (hc | hc) <;> simp [mkTorrentOf, hc]
  · intro cs hc hne
    cases cs with
    | nil => exact absurd rfl hne
    | cons c cs0 => simp [mkTorrentOf, hc]

/-- C8 (witness): concrete instance — `rGood`'s categories
`["Movies", "HD"]` are joined into the single string `"Movies,HD"`. -/
theorem c8_amended_witness :
    tGood.category = some (String.intercalate "," ["Movies", "HD"]) :=
  (c8_amended_categories_comma_joined_or_absent [(1, entryA)]
      (buildSiteMap [siteA]) rGood tGood (by decide)).2
    ["Movies", "HD"] rfl (by decide)

/-- C9 (counterexample): the claim says the cache counts as expired exactly
when `now >= expiresAt`, so at `now = expiresAt` a rebuild occurs.  The
code uses a strict comparison: at `now = expiresAt = 100` the check is
false, and `intercept_search` leaves the cache untouched even though a
rebuild (with one fetched indexer resolving to site 2) would change it. -/
theorem c9_boundary_not_expired :
    cacheExpired 100 100 = false
    ∧ (100 : Int) ≥ 100
    ∧ (interceptSearch resolveSite2 100 (.resp 200 [idxB]) (.resp 200 [])
        { stSearch with cacheExpires := 100 } evA).1.indexersCache
        = stSearch.indexersCache
    ∧ (refreshIndexersCache resolveSite2 100
        (getProwlarrIndexers { stSearch with cacheExpires := 100 }
          (.resp 200 [idxB]))
        { stSearch with cacheExpires := 100 }).indexersCache
        ≠ stSearch.indexersCache := by
  decide

/-- C9 (amended): the cache counts as expired exactly when
`now > expiresAt` (strict).  At or before the boundary
(`now <= expiresAt`) no rebuild happens during search interception — the
cache mapping is unchanged.  Whenever the cache *is* expired (and the
plugin is enabled with a non-empty keyword and site list), a synchronous
rebuild runs before partitioning: the resulting plugin state is exactly
the refreshed state, and the remaining site list is partitioned against
the refreshed cache. -/
theorem c9_amended_strict_expiry (now e : Int)
    (resolve : String → Option SiteInfo)
    (listO : ResOutcome (List RawIndexer)) (o : ResOutcome (List RawResult))
    (st : SearchPluginState) (ev : EventData) :
    (cacheExpired now e = true ↔ e < now)
    ∧ (now ≤ st.cacheExpires →
        (interceptSearch resolve now listO o st ev).1.indexersCache
          = st.indexersCache)
    ∧ (cacheExpired now st.cacheExpires = true →
        searchGetState st = true →
        ¬ (ev.keyword = "" ∨ ev.sites = []) →
        (interceptSearch resolve now listO o st ev).1
            = refreshIndexersCache resolve now (getProwlarrIndexers st listO) st
          ∧ (interceptSearch resolve now listO o st ev).2.sites
              = (if ev.sites.filter (fun s =>
                    (dictFind (refreshIndexersCache resolve now
                      (getProwlarrIndexers st listO) st).indexersCache
                      s.id).isSome) = [] then
                  ev.sites
                else
                  ev.sites.filter (fun s =>
                    ¬ (dictFind (refreshIndexersCache resolve now
                      (getProwlarrIndexers st listO) st).indexersCache
                      s.id).isSome))) := by
  refine ⟨?_, ?_, ?_⟩
  · simp [cacheExpired]
  · intro hle
    have hne : ¬ (cacheExpired now st.cacheExpires = true) := by
      simp [cacheExpired]
      omega
    unfold interceptSearch
    rw [if_neg hne]
    split
    · rfl
    · split
      · rfl
      · dsimp only
        split
        · rfl
        · rfl
  · intro hexp hg hkw
    unfold interceptSearch
    rw [if_neg (by simp [hg] : ¬ ¬ searchGetState st = true), if_neg hkw,
      if_pos hexp]
    dsimp only
    constructor
    · split <;> rfl
    · split <;> rfl

/-- C9 (witness): concrete instances of the amended theorem — at
`now = 100` a cache expiring at 1000 is kept unchanged, while a cache
that expired at 0 is rebuilt synchronously: the interception returns
exactly the refreshed plugin state. -/
theorem c9_amended_witness :
    (cacheExpired 100 100 = true ↔ (100 : Int) < 100)
    ∧ (interceptSearch resolveSite2 100 (.resp 200 [idxB]) (.resp 200 [])
        stSearch evA).1.indexersCache = stSearch.indexersCache
    ∧ (interceptSearch resolveSite2 100 (.resp 200 [idxB]) (.resp 200 [])
        stExpired evA).1
        = refreshIndexersCache resolveSite2 100
            (getProwlarrIndexers stExpired (.resp 200 [idxB])) stExpired :=
  ⟨(c9_amended_strict_expiry 100 100 resolveSite2 (.resp 200 [idxB])
      (.resp 200 []) stSearch evA).1,
   (c9_amended_strict_expiry 100 100 resolveSite2 (.resp 200 [idxB])
      (.resp 200 []) stSearch evA).2.1 (by decide),
   ((c9_amended_strict_expiry 100 0 resolveSite2 (.resp 200 [idxB])
      (.resp 200 []) stExpired evA).2.2 (by decide) (by decide)
      (by decide)).1⟩

/-- C10: `api_update_indexers` returns the success payload
`{"success": True, "message": "索引器更新完成"}` for every plugin state and
every listing outcome, so the caller cannot distinguish a performed
refresh from one skipped because the plugin is disabled, skipped by the
update-interval throttle, or failed at the HTTP level — in each of those
cases the state is returned unchanged with no registrations, yet the
payload is the same. -/
theorem c10_api_always_reports_success (st : IndexerPluginState) (now : Int)
    (o : ReqOutcome (List RawIndexer)) :
    ((api_update_indexers st now o).2
        = { success := true, message := "索引器更新完成" })
    ∧ (st.enabled = false → update_indexers st now o = (st, []))
    ∧ (st.lastUpdateTime ≠ 0 → now - st.lastUpdateTime < st.updateInterval * 3600 →
        update_indexers st now o = (st, []))
    ∧ (o = .exc → update_indexers st now o = (st, []))
    ∧ (∀ status body, o = ReqOutcome.resp status body → status ≠ 200 →
        update_indexers st now o = (st, [])) := by
  refine ⟨rfl, ?_, ?_, ?_, ?_⟩
  · intro h
    simp [update_indexers, h]
  · intro h1 h2
    unfold update_indexers
    split
    · rfl
    · rw [if_pos ⟨h1, h2⟩]
  · intro h
    subst h
    unfold update_indexers
    split
    · rfl
    · split
      · rfl
      · rfl
  · intro status body h hstat
    subst h
    unfold update_indexers
    split
    · rfl
    · split
      · rfl
      · dsimp only
        rw [if_pos hstat]

/-- C10 (witness): concrete instance — a disabled plugin state with a
raising HTTP call still yields the success payload, with the state
unchanged and no registrations. -/
theorem c10_witness :
    (api_update_indexers stIdxDisabled 5 .exc).2
        = { success := true, message := "索引器更新完成" }
    ∧ update_indexers stIdxDisabled 5 .exc = (stIdxDisabled, []) :=
  ⟨(c10_api_always_reports_success stIdxDisabled 5 .exc).1,
   (c10_api_always_reports_success stIdxDisabled 5 .exc).2.1 rfl⟩

end Prowlarr
